import Mathlib

/-!
Verification of the `DataTable` CSV-table manager
(`src/DataTable/DataTable.py`, `src/DataTable/utils.py`).

The embedding models cell values as strings, integers or the empty/NaN
marker; a data frame is an ordered list of column names plus rows given
as association lists from column name to value (a missing key reads as
the empty marker, matching a NaN cell of the columnar frame).  Python
exceptions become an error type, and the pandas behaviours the code
relies on (elementwise `==`/`!=`, `max` with `skipna`, `to_csv(None)`
returning a string) are embedded explicitly where the source uses them.
-/

/-- A cell value: a string, an integer, or the empty/NaN marker
(`numpy.nan` in the source). -/
inductive Value where
  | str (s : String)
  | int (n : Int)
  | empty
deriving DecidableEq, Repr

/-- Python / pandas exceptions that the operations can raise.
`valueError` is the spec's `ShapeKind` raised by `__query_validation`,
`assertionError` its must-have check (`utils.assertion`), `typeError`
the spec's `TypeKind`, `keyError` a pandas lookup failure on a missing
column, `attributeError` an access to a never-assigned attribute. -/
inductive PyError where
  | typeError (msg : String)
  | valueError (msg : String)
  | assertionError (msg : String)
  | keyError (msg : String)
  | attributeError (msg : String)
deriving DecidableEq, Repr

/-- `utils.extract_match(list1, list2)`:
`[element for element in list1 if element in list2]`. -/
def extract_match (l1 l2 : List String) : List String :=
  l1.filter (fun x => l2.contains x)

/-- Python `set(a) == set(b)`: mutual containment of the elements. -/
def pySetEq (l1 l2 : List String) : Bool :=
  l1.all (fun x => l2.contains x) && l2.all (fun x => l1.contains x)

/-- `utils.are_contained(set1, set2)`:
`set(extract_match(set1, set2)) == set(extract_match(set2, set1))`. -/
def are_contained (s1 s2 : List String) : Bool :=
  pySetEq (extract_match s1 s2) (extract_match s2 s1)

/-- A row of the frame: an association list column name to value.
A missing key denotes a NaN cell. -/
abbrev Row := List (String × Value)

/-- Reading a cell: a key the row does not carry is a NaN cell. -/
def cell (r : Row) (c : String) : Value :=
  (r.lookup c).getD Value.empty

/-- Writing a cell of a row (pandas `.loc` assignment on one row):
replace the value if the key is present, append it otherwise. -/
def setCell (r : Row) (c : String) (v : Value) : Row :=
  if (r.lookup c).isSome then
    r.map (fun p => if p.1 == c then (c, v) else p)
  else
    r ++ [(c, v)]

/-- The in-memory frame `self._df`: ordered column names and rows. -/
structure DataFrame where
  cols : List String
  rows : List Row
deriving DecidableEq, Repr

/-- Elementwise pandas `==` of a stored cell against a required value:
NaN compares unequal to everything (itself included), and values of
different kinds compare unequal rather than raising. -/
def pyEq : Value → Value → Bool
  | Value.str a, Value.str b => a == b
  | Value.int a, Value.int b => a == b
  | _, _ => false

/-- A `state` predicate: Python dict column name to required value. -/
abbrev State := List (String × Value)

/-- Row mask of `__filter` and `edit`:
`(df[state] == pd.Series(state)).all(axis=1)`. -/
def matchesState (st : State) (r : Row) : Bool :=
  st.all (fun p => pyEq (cell r p.1) p.2)

/-- A query dict.  The three recognized keys are explicit optional
fields; `extraKeys` lists any further top-level keys the dict carries
(their values are never read by the code). -/
structure Query where
  columns : Option (List String)
  state : Option State
  values : Option (List (String × Value))
  extraKeys : List String
deriving DecidableEq, Repr

/-- `set(query)`: the top-level keys of the query dict. -/
def Query.keys (q : Query) : List String :=
  (if q.columns.isSome then ["columns"] else [])
    ++ (if q.state.isSome then ["state"] else [])
    ++ (if q.values.isSome then ["values"] else [])
    ++ q.extraKeys

/-- `self.__keywords = {'columns', 'state', 'values'}`. -/
def keywords : List String := ["columns", "state", "values"]

/-- The column names a recognized query key lists:
`query[kw] if kw == 'columns' else list(query[kw].keys())`. -/
def namedColumns (q : Query) (kw : String) : List String :=
  if kw == "columns" then q.columns.getD []
  else if kw == "state" then (q.state.getD []).map Prod.fst
  else (q.values.getD []).map Prod.fst

/-- The per-keyword column check loop at the end of
`__query_validation`: for each recognized key present, raise
`ValueError` unless `are_contained(set(columns), set(df.columns))`. -/
def checkColumnsLoop (df : DataFrame) (q : Query) : List String → Except PyError Unit
  | [] => Except.ok ()
  | kw :: rest =>
    if are_contained (namedColumns q kw) df.cols then
      checkColumnsLoop df q rest
    else
      Except.error (PyError.valueError "invalid keywords: unknown column")

/-- `DataTable.__query_validation(query, must_have, source)`.  The
`isinstance(query, dict)` guard is satisfied by construction of
`Query`; the remaining three checks are embedded in order. -/
def query_validation (df : DataFrame) (q : Query) (must_have : List String) :
    Except PyError Unit :=
  if !are_contained q.keys keywords then
    Except.error (PyError.valueError "invalid keywords: unrecognized key")
  else if !pySetEq (extract_match q.keys must_have) must_have then
    Except.error (PyError.assertionError "missing must-have key")
  else
    checkColumnsLoop df q (extract_match q.keys keywords)

/-- `self._df[state]` raises `KeyError` when a state key is not a
column of the frame. -/
def stateKeysKnown (df : DataFrame) (st : State) : Bool :=
  st.all (fun p => df.cols.contains p.1)

/-- `DataTable.__filter(state)`:
`self._df.loc[(self._df[state] == pd.Series(state)).all(axis=1)]`. -/
def filterState (df : DataFrame) (st : State) : Except PyError DataFrame :=
  if stateKeysKnown df st then
    Except.ok { df with rows := df.rows.filter (matchesState st) }
  else
    Except.error (PyError.keyError "state column not in frame")

/-- `table[query['columns']]`: column projection; `KeyError` on an
unknown column name.  (With a set-typed indexer pandas always returns a
DataFrame, so the `isinstance(table, pd.Series)` branch of `get` is
inert.) -/
def project (df : DataFrame) (cs : List String) : Except PyError DataFrame :=
  if cs.all (fun c => df.cols.contains c) then
    Except.ok { cols := cs, rows := df.rows }
  else
    Except.error (PyError.keyError "projected column not in frame")

/-- `table.to_dict('list')` (the default `dict_type` of `get`):
a mapping column name to the list of that column's values. -/
def toDictList (df : DataFrame) : List (String × List Value) :=
  df.cols.map (fun c => (c, df.rows.map (fun r => cell r c)))

/-- The `self.__path` attribute: never assigned when the table was
constructed with no argument, `None` after dict construction, a real
path after file construction. -/
inductive PathAttr where
  | missing
  | noneVal
  | filePath (p : String)
deriving DecidableEq, Repr

/-- What a call to `pandas.to_csv` did: wrote the file at a path, or
(when `path_or_buf` is `None`) returned the rendered text to the
caller without touching any file. -/
inductive SaveOutcome where
  | wrote (p : String)
  | returnedText
deriving DecidableEq, Repr

/-- The `DataTable` object: the frame plus the persistence fields. -/
structure Table where
  df : DataFrame
  pathAttr : PathAttr
  sep : String
deriving DecidableEq, Repr

/-- `DataTable.__init__` on a dict (`__load_from_dict` via
`pd.DataFrame(table)` from column-major data): `self.__path = None`. -/
def DataTable.ofDict (colData : List (String × List Value)) : Table :=
  { df :=
      { cols := colData.map Prod.fst
        rows :=
          (List.range ((colData.map (fun p => p.2.length)).foldr max 0)).map
            (fun i => colData.map (fun p => (p.1, p.2.getD i Value.empty))) }
    pathAttr := PathAttr.noneVal
    sep := ";" }

/-- `DataTable.__init__` with no argument: `self._df = pd.DataFrame()`
and `self.__path` is never assigned. -/
def DataTable.emptyTable : Table :=
  { df := { cols := [], rows := [] }, pathAttr := PathAttr.missing, sep := ";" }

/-- `DataTable.save(path, sep)`: `path = self.__path if path is None
else path`, then `self._df.to_csv(path, ...)`.  When the resolved path
is Python `None`, pandas renders the csv text and returns it as a
string instead of writing a file; when the attribute was never
assigned, reading `self.__path` raises `AttributeError`. -/
def DataTable.save (t : Table) (pathArg : Option String) : Except PyError SaveOutcome :=
  match pathArg with
  | some p => Except.ok (SaveOutcome.wrote p)
  | none =>
    match t.pathAttr with
    | PathAttr.missing => Except.error (PyError.attributeError "no attribute __path")
    | PathAttr.noneVal => Except.ok SaveOutcome.returnedText
    | PathAttr.filePath p => Except.ok (SaveOutcome.wrote p)

/-- The in-place normalization `if 'state' not in query:
query['state'] = {}` performed by `get` and `max` on the caller's
query dict before validation. -/
def normalizeState (q : Query) : Query :=
  if q.state.isSome then q else { q with state := some [] }

/-- `DataTable.get(query)` with the default `dict_type='list'`.
Returns the caller's query object as observable after the call, the
table state after the call (the method never assigns `self._df`), and
the result or the exception raised. -/
def dataTableGet (t : Table) (q : Query) :
    Query × Table × Except PyError (List (String × List Value)) :=
  let q := normalizeState q
  (q, t, do
    query_validation t.df q ["state"]
    let table ← filterState t.df (q.state.getD [])
    let table ←
      match q.columns with
      | some cs => project table cs
      | none => pure table
    pure (toDictList table))

/-- The row-retention mask of `delete`:
`(self._df[query['state']] != pd.Series(query['state'])).all(axis=1)`
— a row is retained when every state condition compares unequal. -/
def deleteMask (st : State) (r : Row) : Bool :=
  st.all (fun p => !pyEq (cell r p.1) p.2)

/-- `DataTable.delete(query, save)`.  Returns the table state after the
call and the save outcome (or the exception raised).  The
`isinstance(save, bool)` guard is satisfied by the `Bool` argument. -/
def dataTableDelete (t : Table) (q : Query) (saveFlag : Bool) :
    Table × Except PyError (Option SaveOutcome) :=
  match query_validation t.df q ["state"] with
  | Except.error e => (t, Except.error e)
  | Except.ok _ =>
    match q.state with
    | none => (t, Except.error (PyError.assertionError "unreachable: validated"))
    | some st =>
      if stateKeysKnown t.df st then
        let t' := { t with df := { t.df with rows := t.df.rows.filter (deleteMask st) } }
        if saveFlag then (t', (DataTable.save t' none).map some)
        else (t', Except.ok none)
      else (t, Except.error (PyError.keyError "state column not in frame"))

/-- The `for kw in query['values']` loop of `edit`: each iteration
recomputes the match mask on the current frame and assigns
`self._df.loc[mask, kw] = query['values'][kw]`; a `kw` that is not yet
a column is added by the `.loc` enlargement (non-matching rows get
NaN), and a state key missing from the frame raises `KeyError`. -/
def editApply (df : DataFrame) (st : State) :
    List (String × Value) → DataFrame × Option PyError
  | [] => (df, none)
  | (kw, v) :: rest =>
    if stateKeysKnown df st then
      editApply
        { cols := if df.cols.contains kw then df.cols else df.cols ++ [kw]
          rows := df.rows.map (fun r => if matchesState st r then setCell r kw v else r) }
        st rest
    else (df, some (PyError.keyError "state column not in frame"))

/-- `DataTable.edit(query, save)`.  Returns the table state after the
call and the save outcome (or the exception raised). -/
def dataTableEdit (t : Table) (q : Query) (saveFlag : Bool) :
    Table × Except PyError (Option SaveOutcome) :=
  match query_validation t.df q ["state", "values"] with
  | Except.error e => (t, Except.error e)
  | Except.ok _ =>
    match q.state, q.values with
    | some st, some vals =>
      match editApply t.df st vals with
      | (df', none) =>
        let t' := { t with df := df' }
        if saveFlag then (t', (DataTable.save t' none).map some)
        else (t', Except.ok none)
      | (df', some e) => ({ t with df := df' }, Except.error e)
    | _, _ => (t, Except.error (PyError.assertionError "unreachable: validated"))

/-- Python `<` on two values, as used by the `max` reduction on a
column: comparable within one kind, `False` against NaN for numbers,
`TypeError` between a string and anything of another kind. -/
def pyLt : Value → Value → Except PyError Bool
  | Value.int a, Value.int b => Except.ok (decide (a < b))
  | Value.str a, Value.str b => Except.ok (decide (a < b))
  | Value.int _, Value.empty => Except.ok false
  | Value.empty, Value.int _ => Except.ok false
  | Value.empty, Value.empty => Except.ok false
  | _, _ => Except.error (PyError.typeError "unorderable types")

/-- The pairwise fold of Python's `max` over the remaining elements. -/
def pyMaxFold : Value → List Value → Except PyError Value
  | acc, [] => Except.ok acc
  | acc, x :: xs => do
    let b ← pyLt acc x
    pyMaxFold (if b then x else acc) xs

/-- `max` over a nonempty collection of values (pandas reduces an
object column with Python comparisons, a numeric column likewise). -/
def pythonMax : List Value → Except PyError Value
  | [] => Except.error (PyError.valueError "max of empty sequence")
  | v :: vs => pyMaxFold v vs

/-- `table[col].max()` under pandas defaults: NaN cells are skipped;
if nothing remains the reduction returns the `numpy.nan` singleton. -/
def nanmax (vs : List Value) : Except PyError Value :=
  if (vs.filter (fun v => v != Value.empty)).isEmpty then Except.ok Value.empty
  else pythonMax (vs.filter (fun v => v != Value.empty))

/-- One entry of the `max_values` dict:
`value = table[col].max(); max_values[col] = value if value is not nan
else 0` — the identity test against `numpy.nan` recognises the empty
reduction (pandas returns the nan singleton there). -/
def maxColValue (vs : List Value) : Except PyError Value := do
  let v ← nanmax vs
  pure (if v == Value.empty then Value.int 0 else v)

/-- The `for col in table.columns` loop of `max`, building the
`max_values` dict in column order. -/
def maxValuesLoop (df : DataFrame) : List String → Except PyError (List (String × Value))
  | [] => Except.ok []
  | c :: rest => do
    let v ← maxColValue (df.rows.map (fun r => cell r c))
    let res ← maxValuesLoop df rest
    pure ((c, v) :: res)

/-- `DataTable.max(query)`.  Returns the caller's query object as
observable after the call and the result dict or the exception raised.
The trailing `0 if max_values is nan else max_values` always takes the
second branch (`max_values` is a dict, never the nan object). -/
def dataTableMax (t : Table) (q : Query) :
    Query × Except PyError (List (String × Value)) :=
  let q := normalizeState q
  (q, do
    query_validation t.df q ["columns"]
    let table ← filterState t.df (q.state.getD [])
    let table ←
      match q.columns with
      | some cs => project table cs
      | none => pure table
    maxValuesLoop table table.cols)

/-- The worked scenario table of the spec: columns animal, color and
rows dog/red, cat/black, dog/black. -/
def scenarioTable : Table :=
  DataTable.ofDict
    [("animal", [Value.str "dog", Value.str "cat", Value.str "dog"]),
     ("color", [Value.str "red", Value.str "black", Value.str "black"])]

/-- Kind test used to state type-homogeneity of a column. -/
def Value.isStr : Value → Bool
  | Value.str _ => true
  | _ => false

/-- Kind test used to state type-homogeneity of a column. -/
def Value.isInt : Value → Bool
  | Value.int _ => true
  | _ => false

/-- A collection of values that Python can order pairwise: all strings
or all integers. -/
def homogeneousVals (vs : List Value) : Bool :=
  vs.all Value.isStr || vs.all Value.isInt

/-- The non-empty values of column `c` after filtering the rows by the
state predicate: exactly the values `max` reduces for that column. -/
def filteredColumn (t : Table) (st : State) (c : String) : List Value :=
  ((t.df.rows.filter (matchesState st)).map (fun r => cell r c)).filter
    (fun v => v != Value.empty)

/-- A one-column table whose column mixes a string and an integer. -/
def mixedTable : Table :=
  DataTable.ofDict [("x", [Value.str "a", Value.int 1])]

/-- A one-column, one-row table built from a dict. -/
def dogTable : Table :=
  DataTable.ofDict [("animal", [Value.str "dog"])]

/-- A numeric table used to exercise `max` on concrete data. -/
def ageTable : Table :=
  DataTable.ofDict [("age", [Value.int 3, Value.int 7])]

/-! ## Helper lemmas -/

theorem mem_extract_match {x : String} {l1 l2 : List String} :
    x ∈ extract_match l1 l2 ↔ x ∈ l1 ∧ x ∈ l2 := by
  simp [extract_match, List.mem_filter, List.contains, List.elem_iff]

/-- The central defect of `utils.are_contained`: it compares the two
intersections `set1 ∩ set2` and `set2 ∩ set1`, which are always equal,
so it holds of ANY pair of inputs. -/
theorem are_contained_eq_true (l1 l2 : List String) : are_contained l1 l2 = true := by
  simp only [are_contained, pySetEq, Bool.and_eq_true, List.all_eq_true]
  constructor
  · intro x hx
    have h := mem_extract_match.mp hx
    simp [List.contains, List.elem_iff, mem_extract_match, h.1, h.2]
  · intro x hx
    have h := mem_extract_match.mp hx
    simp [List.contains, List.elem_iff, mem_extract_match, h.1, h.2]

/-- Consequently the unknown-column loop of the validator never
raises, whatever columns the query names. -/
theorem checkColumnsLoop_ok (df : DataFrame) (q : Query) (kws : List String) :
    checkColumnsLoop df q kws = Except.ok () := by
  induction kws with
  | nil => rfl
  | cons kw rest ih =>
    unfold checkColumnsLoop
    rw [are_contained_eq_true]
    simpa using ih

/-- The only live check of `__query_validation`: the must-have keys.
When they are present the validation succeeds, whatever else the query
contains. -/
theorem query_validation_ok (df : DataFrame) (q : Query) (mh : List String)
    (h : pySetEq (extract_match q.keys mh) mh = true) :
    query_validation df q mh = Except.ok () := by
  unfold query_validation
  rw [are_contained_eq_true, h]
  simp [checkColumnsLoop_ok]

/-- `Except.bind` on a success reduces to the continuation. -/
theorem exbind_ok {α β : Type} (a : α) (f : α → Except PyError β) :
    Except.bind (Except.ok a) f = f a := rfl

def pickMax {α : Type} [LinearOrder α] (x y : α) : α := if x < y then y else x

theorem le_foldl_pickMax {α : Type} [LinearOrder α] (a : α) (l : List α) :
    a ≤ l.foldl pickMax a := by
  induction l generalizing a with
  | nil => exact le_refl a
  | cons y l ih =>
    refine le_trans ?_ (ih (pickMax a y))
    unfold pickMax
    split
    · exact le_of_lt (by assumption)
    · exact le_refl a

theorem foldl_pickMax_mem {α : Type} [LinearOrder α] (a : α) (l : List α) :
    l.foldl pickMax a ∈ a :: l := by
  induction l generalizing a with
  | nil => exact List.mem_singleton.mpr rfl
  | cons y l ih =>
    have h := ih (pickMax a y)
    rcases List.mem_cons.mp h with h1 | h2
    · rw [List.foldl_cons, h1]
      unfold pickMax
      split
      · exact List.mem_cons_of_mem a (List.mem_cons_self y l)
      · exact List.mem_cons_self a (y :: l)
    · exact List.mem_cons_of_mem a (List.mem_cons_of_mem y h2)

theorem foldl_pickMax_ge {α : Type} [LinearOrder α] (a : α) (l : List α) :
    ∀ x ∈ a :: l, x ≤ l.foldl pickMax a := by
  induction l generalizing a with
  | nil =>
    intro x hx
    rw [List.mem_singleton.mp hx]
    exact le_refl a
  | cons y l ih =>
    intro x hx
    rw [List.foldl_cons]
    rcases List.mem_cons.mp hx with h1 | h2
    · subst h1
      refine le_trans ?_ (le_foldl_pickMax (pickMax x y) l)
      unfold pickMax
      split
      · exact le_of_lt (by assumption)
      · exact le_refl x
    · rcases List.mem_cons.mp h2 with h3 | h4
      · subst h3
        refine le_trans ?_ (le_foldl_pickMax (pickMax a x) l)
        unfold pickMax
        split
        · exact le_refl x
        · exact le_of_not_lt (by assumption)
      · exact ih (pickMax a y) x (List.mem_cons_of_mem _ h4)

theorem pyMaxFold_mk {α : Type} [LinearOrder α] (mk : α → Value)
    (hlt : ∀ x y : α, x < y → pyLt (mk x) (mk y) = Except.ok true)
    (hnlt : ∀ x y : α, ¬x < y → pyLt (mk x) (mk y) = Except.ok false)
    (a : α) (l : List α) :
    pyMaxFold (mk a) (l.map mk) = Except.ok (mk (l.foldl pickMax a)) := by
  induction l generalizing a with
  | nil => rfl
  | cons s l ih =>
    rw [List.map_cons, List.foldl_cons]
    show (do
      let b ← pyLt (mk a) (mk s)
      pyMaxFold (if b then mk s else mk a) (l.map mk)) = _
    by_cases h : a < s
    · rw [hlt a s h]
      show pyMaxFold (mk s) (l.map mk) = Except.ok (mk (l.foldl pickMax (pickMax a s)))
      rw [show pickMax a s = s from if_pos h]
      exact ih s
    · rw [hnlt a s h]
      show pyMaxFold (mk a) (l.map mk) = Except.ok (mk (l.foldl pickMax (pickMax a s)))
      rw [show pickMax a s = a from if_neg h]
      exact ih a

theorem pythonMax_map_spec {α : Type} [LinearOrder α] (mk : α → Value)
    (hlt : ∀ x y : α, x < y → pyLt (mk x) (mk y) = Except.ok true)
    (hnlt : ∀ x y : α, ¬x < y → pyLt (mk x) (mk y) = Except.ok false)
    (ss : List α) (hne : ss ≠ []) :
    ∃ v, pythonMax (ss.map mk) = Except.ok v ∧ v ∈ ss.map mk ∧
      ∀ w ∈ ss.map mk, pyLt v w = Except.ok false := by
  cases ss with
  | nil => exact absurd rfl hne
  | cons a l =>
    refine ⟨mk (l.foldl pickMax a), ?_, ?_, ?_⟩
    · rw [List.map_cons]
      show pyMaxFold (mk a) (l.map mk) = _
      exact pyMaxFold_mk mk hlt hnlt a l
    · exact List.mem_map_of_mem mk (foldl_pickMax_mem a l)
    · intro w hw
      obtain ⟨x, hx, rfl⟩ := List.mem_map.mp hw
      exact hnlt _ _ (not_lt.mpr (foldl_pickMax_ge a l x hx))

theorem all_isStr_eq_map (vs : List Value) (h : vs.all Value.isStr = true) :
    ∃ ss : List String, vs = ss.map Value.str := by
  induction vs with
  | nil => exact ⟨[], rfl⟩
  | cons v vs ih =>
    rw [List.all_cons, Bool.and_eq_true] at h
    obtain ⟨ss, hss⟩ := ih h.2
    cases v with
    | str s => exact ⟨s :: ss, by rw [List.map_cons, hss]⟩
    | int n => simp [Value.isStr] at h
    | empty => simp [Value.isStr] at h

theorem all_isInt_eq_map (vs : List Value) (h : vs.all Value.isInt = true) :
    ∃ ns : List Int, vs = ns.map Value.int := by
  induction vs with
  | nil => exact ⟨[], rfl⟩
  | cons v vs ih =>
    rw [List.all_cons, Bool.and_eq_true] at h
    obtain ⟨ns, hns⟩ := ih h.2
    cases v with
    | int n => exact ⟨n :: ns, by rw [List.map_cons, hns]⟩
    | str s => simp [Value.isInt] at h
    | empty => simp [Value.isInt] at h

/-- Python's `max` on a nonempty homogeneous collection returns a
maximum element and never raises. -/
theorem pythonMax_homog_spec (ws : List Value) (hne : ws ≠ [])
    (h : homogeneousVals ws = true) :
    ∃ v, pythonMax ws = Except.ok v ∧ v ∈ ws ∧
      ∀ w ∈ ws, pyLt v w = Except.ok false := by
  rw [homogeneousVals, Bool.or_eq_true] at h
  rcases h with h | h
  · obtain ⟨ss, rfl⟩ := all_isStr_eq_map ws h
    have hss : ss ≠ [] := by
      intro hnil
      rw [hnil] at hne
      exact hne rfl
    exact pythonMax_map_spec Value.str
      (fun x y hxy => by simp only [pyLt]; rw [decide_eq_true hxy])
      (fun x y hxy => by simp only [pyLt]; rw [decide_eq_false hxy]) ss hss
  · obtain ⟨ns, rfl⟩ := all_isInt_eq_map ws h
    have hns : ns ≠ [] := by
      intro hnil
      rw [hnil] at hne
      exact hne rfl
    exact pythonMax_map_spec Value.int
      (fun x y hxy => by simp only [pyLt]; rw [decide_eq_true hxy])
      (fun x y hxy => by simp only [pyLt]; rw [decide_eq_false hxy]) ns hns

/-- One column of the `max` loop: empty reduction gives numeric 0,
otherwise the maximum of the non-empty values. -/
theorem maxColValue_spec (vs : List Value)
    (h : homogeneousVals (vs.filter (fun v => v != Value.empty)) = true) :
    ∃ v, maxColValue vs = Except.ok v ∧
      ((vs.filter (fun v => v != Value.empty) = [] ∧ v = Value.int 0) ∨
       (v ∈ vs.filter (fun v => v != Value.empty) ∧
        ∀ w ∈ vs.filter (fun v => v != Value.empty), pyLt v w = Except.ok false)) := by
  by_cases hemp : vs.filter (fun v => v != Value.empty) = []
  · refine ⟨Value.int 0, ?_, Or.inl ⟨hemp, rfl⟩⟩
    unfold maxColValue nanmax
    rw [hemp]
    rfl
  · obtain ⟨v, hv, hmem, hge⟩ := pythonMax_homog_spec _ hemp h
    have hvne : v ≠ Value.empty := by
      intro hcontra
      have hf := List.of_mem_filter hmem
      rw [hcontra] at hf
      simp at hf
    have hne' : ¬((vs.filter (fun v => v != Value.empty)).isEmpty = true) := by
      simpa [List.isEmpty_iff] using hemp
    refine ⟨v, ?_, Or.inr ⟨hmem, hge⟩⟩
    unfold maxColValue nanmax
    rw [if_neg hne', hv]
    cases v with
    | str s => rfl
    | int n => rfl
    | empty => exact absurd rfl hvne

/-- Each entry of the max loop either reports numeric 0 for an empty
reduction or a maximum of the column's non-empty values. -/
theorem maxValuesLoop_spec (df : DataFrame) (P : String → Value → Prop) :
    ∀ l : List String,
      (∀ c ∈ l, ∃ v, maxColValue (df.rows.map (fun r => cell r c)) = Except.ok v ∧ P c v) →
      ∃ res, maxValuesLoop df l = Except.ok res ∧ res.map Prod.fst = l ∧
        ∀ p ∈ res, P p.1 p.2 := by
  intro l
  induction l with
  | nil => exact fun _ => ⟨[], rfl, rfl, fun p hp => absurd hp (List.not_mem_nil p)⟩
  | cons c l ih =>
    intro hp
    obtain ⟨v, hv, hPv⟩ := hp c (List.mem_cons_self c l)
    obtain ⟨res, hres, hfst, hP⟩ := ih (fun c' hc' => hp c' (List.mem_cons_of_mem c hc'))
    refine ⟨(c, v) :: res, ?_, ?_, ?_⟩
    · show Except.bind (maxColValue (df.rows.map (fun r => cell r c)))
        (fun v => Except.bind (maxValuesLoop df l)
          (fun res => Except.ok ((c, v) :: res))) = _
      rw [hv, exbind_ok, hres, exbind_ok]
    · rw [List.map_cons, hfst]
    · intro p hp2
      rcases List.mem_cons.mp hp2 with h1 | h2
      · rw [h1]
        exact hPv
      · exact hP p h2

/-- With existing state keys and existing requested columns, `max`
reduces to the per-column loop over the filtered, projected frame. -/
theorem dataTableMax_reduction (t : Table) (st : State) (cs : List String)
    (hst : stateKeysKnown t.df st = true)
    (hcs : cs.all (fun c => t.df.cols.contains c) = true) :
    (dataTableMax t ⟨some cs, some st, none, []⟩).2 =
      maxValuesLoop { cols := cs, rows := t.df.rows.filter (matchesState st) } cs := by
  show Except.bind (query_validation t.df ⟨some cs, some st, none, []⟩ ["columns"])
      (fun _ => Except.bind (filterState t.df st)
        (fun table => Except.bind (project table cs)
          (fun table => maxValuesLoop table table.cols))) = _
  rw [query_validation_ok t.df ⟨some cs, some st, none, []⟩ ["columns"] rfl, exbind_ok]
  have hfs : filterState t.df st =
      Except.ok { cols := t.df.cols, rows := t.df.rows.filter (matchesState st) } := by
    unfold filterState
    rw [hst]
    rfl
  rw [hfs, exbind_ok]
  have hpr : project { cols := t.df.cols, rows := t.df.rows.filter (matchesState st) } cs =
      Except.ok { cols := cs, rows := t.df.rows.filter (matchesState st) } := by
    unfold project
    rw [show (cs.all (fun c =>
        ({ cols := t.df.cols, rows := t.df.rows.filter (matchesState st) } : DataFrame).cols.contains c)) = true from hcs]
    rfl
  rw [hpr, exbind_ok]

/-- A row retained by `delete` fails every state condition, so with at
least one condition it can never match the whole conjunction again. -/
theorem filter_delete_then_match_nil (rows : List Row) (st : State) (hne : st ≠ []) :
    (rows.filter (deleteMask st)).filter (matchesState st) = [] := by
  cases st with
  | nil => exact absurd rfl hne
  | cons p st' =>
    rw [List.filter_filter]
    refine List.filter_eq_nil_iff.mpr (fun r hr => ?_)
    intro hcontra
    simp only [matchesState, deleteMask, Bool.and_eq_true] at hcontra
    have h2 := List.all_eq_true.mp hcontra.1 p (List.mem_cons_self p st')
    have h1 := List.all_eq_true.mp hcontra.2 p (List.mem_cons_self p st')
    simp only at h1 h2
    rw [h2] at h1
    simp at h1

/-! ## Claim theorems -/

/-- C1.  The claim says a query with a top-level key outside
recognizedKeys (here `foo`) makes every validating operation raise a
ShapeKind error and leave the table unchanged.  On the code the
tautological `are_contained` lets the key through: validation
succeeds, `delete` raises nothing and the rows DO change. -/
theorem C1_unrecognized_key_accepted :
    query_validation scenarioTable.df
        ⟨none, some [("animal", Value.str "dog")], none, ["foo"]⟩ ["state"] = Except.ok () ∧
    (dataTableDelete scenarioTable
        ⟨none, some [("animal", Value.str "dog")], none, ["foo"]⟩ false).2 = Except.ok none ∧
    (dataTableDelete scenarioTable
        ⟨none, some [("animal", Value.str "dog")], none, ["foo"]⟩ false).1.df.rows ≠
      scenarioTable.df.rows :=
  ⟨rfl, rfl, by decide⟩

/-- C2.  The claim says `delete` drops exactly the rows matching every
state condition.  On the code the mask `(df[state] != series).all`
retains only rows failing every condition, so the row dog/black —
which matches `animal` but not `color`, hence not the conjunction —
is dropped too: only cat/black remains. -/
theorem C2_delete_drops_partially_matching_rows :
    (dataTableDelete scenarioTable
        ⟨none, some [("animal", Value.str "dog"), ("color", Value.str "red")], none, []⟩
        false).1.df.rows =
      [[("animal", Value.str "cat"), ("color", Value.str "black")]] ∧
    matchesState [("animal", Value.str "dog"), ("color", Value.str "red")]
        [("animal", Value.str "dog"), ("color", Value.str "black")] = false :=
  ⟨rfl, rfl⟩

/-- C3.  The claim says columns named in an edit's `values` must
already exist and edit never adds columns.  On the code the dead
column check accepts the unknown column `size` and the `.loc`
enlargement appends it to the frame. -/
theorem C3_edit_adds_unknown_column :
    (dataTableEdit scenarioTable
        ⟨none, some [("animal", Value.str "dog")], some [("size", Value.str "big")], []⟩
        false).2 = Except.ok none ∧
    (dataTableEdit scenarioTable
        ⟨none, some [("animal", Value.str "dog")], some [("size", Value.str "big")], []⟩
        false).1.df.cols = ["animal", "color", "size"] :=
  ⟨rfl, rfl⟩

/-- C4 counterexample.  The claim says `max` never throws on queries
naming existing columns; on a column holding both a string and an
integer the reduction compares them and raises a Python TypeError. -/
theorem C4_counterexample_mixed_column :
    (dataTableMax mixedTable ⟨some ["x"], none, none, []⟩).2 =
      Except.error (PyError.typeError "unorderable types") := rfl

/-- C4 (amended).  For a max query whose state keys and requested
columns all exist, and whose requested columns hold type-homogeneous
non-empty values after filtering, `max` never throws; a column whose
filtered selection has zero rows or only empty values yields the
numeric value 0, and otherwise the maximum of its values under the
natural ordering. -/
theorem C4_max_amended (t : Table) (st : State) (cs : List String)
    (hst : stateKeysKnown t.df st = true)
    (hcs : cs.all (fun c => t.df.cols.contains c) = true)
    (hhom : ∀ c ∈ cs, homogeneousVals (filteredColumn t st c) = true) :
    ∃ res, (dataTableMax t ⟨some cs, some st, none, []⟩).2 = Except.ok res ∧
      res.map Prod.fst = cs ∧
      ∀ p ∈ res,
        (filteredColumn t st p.1 = [] ∧ p.2 = Value.int 0) ∨
        (p.2 ∈ filteredColumn t st p.1 ∧
         ∀ w ∈ filteredColumn t st p.1, pyLt p.2 w = Except.ok false) := by
  rw [dataTableMax_reduction t st cs hst hcs]
  exact maxValuesLoop_spec
    { cols := cs, rows := t.df.rows.filter (matchesState st) }
    (fun c v =>
      (filteredColumn t st c = [] ∧ v = Value.int 0) ∨
      (v ∈ filteredColumn t st c ∧
       ∀ w ∈ filteredColumn t st c, pyLt v w = Except.ok false))
    cs
    (fun c hc =>
      maxColValue_spec ((t.df.rows.filter (matchesState st)).map (fun r => cell r c))
        (hhom c hc))

/-- C4 witness: on the numeric age table the amended theorem applies
and yields the maximum 7. -/
theorem C4_max_amended_witness :
    stateKeysKnown ageTable.df [] = true ∧
    ((["age"] : List String).all (fun c => ageTable.df.cols.contains c) = true) ∧
    (∃ res, (dataTableMax ageTable ⟨some ["age"], some [], none, []⟩).2 = Except.ok res ∧
      res.map Prod.fst = ["age"] ∧
      ∀ p ∈ res,
        (filteredColumn ageTable [] p.1 = [] ∧ p.2 = Value.int 0) ∨
        (p.2 ∈ filteredColumn ageTable [] p.1 ∧
         ∀ w ∈ filteredColumn ageTable [] p.1, pyLt p.2 w = Except.ok false)) :=
  ⟨rfl, rfl, C4_max_amended ageTable [] ["age"] rfl rfl (by decide)⟩

/-- C5.  The claim says `save` without a path fails on a table built
without a source location.  For a dict-built table the path attribute
is Python None, pandas `to_csv(None)` renders the text and returns it,
and `save` discards it: no failure, nothing persisted — also when a
mutating call triggers it.  Only the empty-built table fails, and with
an AttributeError on the never-assigned path attribute. -/
theorem C5_save_without_path_silently_succeeds :
    DataTable.save dogTable none = Except.ok SaveOutcome.returnedText ∧
    (dataTableDelete dogTable ⟨none, some [("animal", Value.str "dog")], none, []⟩ true).2 =
      Except.ok (some SaveOutcome.returnedText) ∧
    DataTable.save DataTable.emptyTable none =
      Except.error (PyError.attributeError "no attribute __path") :=
  ⟨rfl, rfl, rfl⟩

/-- C6.  The claim says a recognized key naming a column outside the
table's columns makes the validating operations raise ShapeKind and
leave the table unchanged.  On the code the tautological
`are_contained` passes the unknown column: `get` then fails later with
a pandas KeyError instead, and `edit` with an unknown `values` column
raises nothing at all. -/
theorem C6_unknown_column_passes_validation :
    query_validation scenarioTable.df ⟨some ["size"], some [], none, []⟩ ["state"] =
      Except.ok () ∧
    (dataTableGet scenarioTable ⟨some ["size"], some [], none, []⟩).2.2 =
      Except.error (PyError.keyError "projected column not in frame") ∧
    (dataTableEdit scenarioTable
        ⟨none, some [("animal", Value.str "dog")], some [("weight", Value.int 5)], []⟩
        false).2 = Except.ok none :=
  ⟨rfl, rfl, rfl⟩

/-- C7 counterexample.  With the empty state predicate — valid, and
meaning match-all — `delete` removes nothing (the inverted mask
vacuously retains every row), so `get` with the same state still
returns the row: not zero matches. -/
theorem C7_counterexample_empty_state :
    (dataTableGet (dataTableDelete dogTable ⟨none, some [], none, []⟩ false).1
        ⟨none, some [], none, []⟩).2.2 = Except.ok [("animal", [Value.str "dog"])] ∧
    [("animal", [Value.str "dog"])] ≠ dogTable.df.cols.map (fun c => (c, ([] : List Value))) :=
  ⟨rfl, by decide⟩

/-- C7 (amended).  For every state predicate with at least one
condition whose keys exist in the table, `delete` with that state
followed by `get` with the same state yields zero matching rows:
every column of the result maps to the empty list. -/
theorem C7_delete_then_get_empty (t : Table) (st : State) (hne : st ≠ [])
    (hcols : stateKeysKnown t.df st = true) :
    (dataTableGet (dataTableDelete t ⟨none, some st, none, []⟩ false).1
        ⟨none, some st, none, []⟩).2.2 =
      Except.ok (t.df.cols.map (fun c => (c, ([] : List Value)))) := by
  have hdel : (dataTableDelete t ⟨none, some st, none, []⟩ false).1 =
      Table.mk (DataFrame.mk t.df.cols (t.df.rows.filter (deleteMask st))) t.pathAttr t.sep := by
    unfold dataTableDelete
    rw [query_validation_ok t.df ⟨none, some st, none, []⟩ ["state"] rfl]
    dsimp only
    rw [hcols]
    rfl
  rw [hdel]
  have hfil : filterState (DataFrame.mk t.df.cols (t.df.rows.filter (deleteMask st))) st =
      Except.ok (DataFrame.mk t.df.cols []) := by
    unfold filterState
    rw [show stateKeysKnown (DataFrame.mk t.df.cols (t.df.rows.filter (deleteMask st))) st = true
      from hcols]
    rw [if_pos rfl]
    show Except.ok (DataFrame.mk t.df.cols
      ((t.df.rows.filter (deleteMask st)).filter (matchesState st))) = _
    rw [filter_delete_then_match_nil t.df.rows st hne]
  show Except.bind (query_validation (DataFrame.mk t.df.cols (t.df.rows.filter (deleteMask st)))
      ⟨none, some st, none, []⟩ ["state"])
    (fun _ => Except.bind (filterState (DataFrame.mk t.df.cols (t.df.rows.filter (deleteMask st))) st)
      (fun table => Except.bind (Except.ok table)
        (fun table => Except.ok (toDictList table)))) =
    Except.ok (t.df.cols.map (fun c => (c, ([] : List Value))))
  rw [query_validation_ok (DataFrame.mk t.df.cols (t.df.rows.filter (deleteMask st)))
    ⟨none, some st, none, []⟩ ["state"] rfl, hfil]
  rfl

/-- C7 witness: deleting the dog rows of the scenario table and
reading back with the same state yields empty columns. -/
theorem C7_delete_then_get_empty_witness :
    ([("animal", Value.str "dog")] : State) ≠ [] ∧
    stateKeysKnown scenarioTable.df [("animal", Value.str "dog")] = true ∧
    (dataTableGet
        (dataTableDelete scenarioTable
          ⟨none, some [("animal", Value.str "dog")], none, []⟩ false).1
        ⟨none, some [("animal", Value.str "dog")], none, []⟩).2.2 =
      Except.ok (scenarioTable.df.cols.map (fun c => (c, ([] : List Value)))) :=
  ⟨by decide, rfl,
    C7_delete_then_get_empty scenarioTable [("animal", Value.str "dog")] (by decide) rfl⟩

/-- C8.  `get` never writes the frame: for every table and every query
the table state observable after the call is the one passed in. -/
theorem C8_get_preserves_table (t : Table) (q : Query) :
    (dataTableGet t q).2.1 = t := rfl

/-- C9.  On the scenario table, `get` with state animal = dog and the
single requested column color returns, under the default list output
shape, the mapping color to [red, black] — still table-shaped. -/
theorem C9_get_scenario_single_column :
    (dataTableGet scenarioTable
        ⟨some ["color"], some [("animal", Value.str "dog")], none, []⟩).2.2 =
      Except.ok [("color", [Value.str "red", Value.str "black"])] := rfl

/-- C10.  When the query has no `state` key, `get` and `max` insert
`state` bound to the empty mapping into the caller's query object
before validating, so the argument observed after the call differs
from the one passed in. -/
theorem C10_get_max_mutate_query (t : Table) (q : Query) (h : q.state = none) :
    (dataTableGet t q).1 = { q with state := some [] } ∧
    (dataTableMax t q).1 = { q with state := some [] } ∧
    { q with state := some [] } ≠ q := by
  have hn : normalizeState q = { q with state := some [] } := by
    unfold normalizeState
    rw [h]
    rfl
  refine ⟨hn, hn, fun hcontra => ?_⟩
  have hs := congrArg Query.state hcontra
  rw [h] at hs
  simp at hs

/-- C10 witness: the empty query passed to `get` and `max` on the
scenario table comes back with a `state` key it did not have. -/
theorem C10_get_max_mutate_query_witness :
    (Query.mk none none none []).state = none ∧
    ((dataTableGet scenarioTable (Query.mk none none none [])).1 =
        { Query.mk none none none [] with state := some [] } ∧
      (dataTableMax scenarioTable (Query.mk none none none [])).1 =
        { Query.mk none none none [] with state := some [] } ∧
      { Query.mk none none none [] with state := some [] } ≠ Query.mk none none none []) :=
  ⟨rfl, C10_get_max_mutate_query scenarioTable (Query.mk none none none []) rfl⟩
